import Mathlib

/-!
Verification of the LCZ (Local Climate Zone) actual-vs-predicted plotter.

This file gives a shallow embedding of the repository's two utility modules:

* `utilities/lcz_utils.py` — `convert_LCZ_num_to_class`, `get_LCZ_order`
  (the palette loader `load_LCZ_class_palette` is pure file I/O and is not
  needed by any claim);
* `utilities/plot_utils.py` — `plot_pred_vs_actual`, embedded as a pure
  function from its arguments to the ordered list of side effects it performs
  on the charting library, together with an optional raised exception.

File loading (`open` + `json.load`) is modelled away: wherever the Python code
reads the number-to-class mapper JSON file, the Lean function takes the parsed
mapping directly, as an association list `List (Int × String)` whose order is
the dictionary's insertion (iteration) order.  The JSON object-hook coerces the
string keys to `int` at load time, hence the `Int` keys.
-/

set_option autoImplicit false

namespace LCZPlotter

/-- Python exception classes that the embedded code can raise. -/
inductive PyErr where
  | valueError
  | unboundLocalError
  deriving DecidableEq, Repr

/-- A value held in an LCZ series: either a numerical code or a class label
(Python equality between an `int` and a `str` is `False`, matching the
disjointness of the two constructors). -/
inductive LCZVal where
  | num (n : Int)
  | cls (s : String)
  deriving DecidableEq, Repr

/-- `pandas.Series.unique()`: the distinct values of a sequence in order of
first appearance. -/
def pdUnique {α : Type} [DecidableEq α] : List α → List α
  | [] => []
  | a :: l => a :: (pdUnique l).filter (fun b => decide (b ≠ a))

/-- `convert_LCZ_num_to_class` (`utilities/lcz_utils.py:6-46`): maps every
code of the series through the number-to-class dictionary with
`pd.Series.map`, which is position-wise and yields a missing value (`NaN`,
modelled `none`) for a code absent from the dictionary, never an exception. -/
def convert_LCZ_num_to_class (LCZ_num : List Int)
    (LCZ_num_to_class : List (Int × String)) : List (Option String) :=
  LCZ_num.map (fun code => LCZ_num_to_class.lookup code)

/-- `get_LCZ_order` (`utilities/lcz_utils.py:82-142`): takes the unique values
of the series, picks the reference ordering from the mapper (`keys()` for
`"num"`, `values()` for `"class"`), and filters that reference ordering by
membership in the unique values.  The `case _` arm of the Python `match`
builds `ValueError(...)` WITHOUT raising it, so execution falls through to the
list comprehension where the local `LCZ_ref` is unbound: the call actually
fails with `UnboundLocalError`, which is what the wildcard branch returns
here. -/
def get_LCZ_order (LCZ : List LCZVal) (LCZ_num_to_class : List (Int × String))
    (LCZ_kind : String) : Except PyErr (List LCZVal) :=
  let LCZ_unique := pdUnique LCZ
  if LCZ_kind = "num" then
    .ok (((LCZ_num_to_class.map Prod.fst).map LCZVal.num).filter
      (fun x => decide (x ∈ LCZ_unique)))
  else if LCZ_kind = "class" then
    .ok (((LCZ_num_to_class.map Prod.snd).map LCZVal.cls).filter
      (fun x => decide (x ∈ LCZ_unique)))
  else
    .error PyErr.unboundLocalError

/-! ## Embedding of `utilities/plot_utils.py` -/

/-- A record set (`pd.DataFrame`): named numeric columns.  Claims only probe
the numeric columns (`col_actual`, `col_pred`) and the NAME of the hue column,
so every column is carried as a list of rationals; the hue column's labels are
irrelevant to the emitted effects (they are consumed inside seaborn). -/
def DataFrame : Type := List (String × List ℚ)

/-- Column presence check, as seaborn performs it on `data=df` for `x`, `y`
and a non-`None` `hue`. -/
def hasCol (df : DataFrame) (name : String) : Bool :=
  (List.lookup name df).isSome

/-- Column access by name. -/
def getCol (df : DataFrame) (name : String) : Option (List ℚ) :=
  List.lookup name df

/-- `pd.Series.min` with `skipna` semantics: `none` on an empty column. -/
def seriesMin (l : List ℚ) : Option ℚ :=
  l.foldr (fun x acc => match acc with
    | none => some x
    | some m => some (min x m)) none

/-- `pd.Series.max` with `skipna` semantics: `none` on an empty column. -/
def seriesMax (l : List ℚ) : Option ℚ :=
  l.foldr (fun x acc => match acc with
    | none => some x
    | some m => some (max x m)) none

/-- `DataFrame.min().min()` over two one-column minima: a missing (`NaN`)
column minimum is skipped. -/
def optMin : Option ℚ → Option ℚ → Option ℚ
  | none, b => b
  | some x, none => some x
  | some x, some y => some (min x y)

/-- `DataFrame.max().max()` over two one-column maxima. -/
def optMax : Option ℚ → Option ℚ → Option ℚ
  | none, b => b
  | some x, none => some x
  | some x, some y => some (max x y)

/-- One observable act of `plot_pred_vs_actual` on the charting library, in
program order.  `setXlim`/`setYlim` carry `none` where Python would pass a
`NaN` bound (empty data). -/
inductive Effect where
  | rcContext
  | figure
  | axesInit
  | title (s : String)
  | scatter (x y : String) (hue : Option String) (hueOrder : Option (List String))
      (palette : Option (List (String × String)))
  | scoresText (scores : List (String × ℚ))
  | setXlim (lo hi : Option ℚ)
  | setYlim (lo hi : Option ℚ)
  | axline
  | xlabel (title units : String)
  | ylabel (title units : String)
  | minorticksOn
  | setAspectEqual
  | gridMajor
  | gridMinor
  | legend (title : Option String)
  | showPlot
  deriving DecidableEq, Repr

/-- The effects `plot_pred_vs_actual` performs before the seaborn scatter
call: entering the rc context, `plt.figure`, `plt.axes`, `plt.title`. -/
def preEffects (target_title_fancy : String) : List Effect :=
  [Effect.rcContext, Effect.figure, Effect.axesInit,
   Effect.title ("Actual and predicted " ++ target_title_fancy)]

/-- seaborn's column validation for `sns.scatterplot(data=df, x=.., y=.., hue=..)`:
each of `x`, `y` and a non-`None` `hue` must name a column of `df`, else it
raises `ValueError` ("Could not interpret value ... for ..."). -/
def scatterColsOk (df : DataFrame) (col_actual col_pred : String)
    (hueArg : Option String) : Bool :=
  hasCol df col_actual && hasCol df col_pred &&
    (match hueArg with
     | some h => hasCol df h
     | none => true)

/-- The axes-range effects (`plot_utils.py:112-120`): `x_min`/`x_max` are the
overall min/max of the actual and predicted columns, widened by `0.05 * Delta_x`
on each side, and `y_min`/`y_max` are set to the very same values. -/
def axisRangeEffects (df : DataFrame) (col_actual col_pred : String) :
    List Effect :=
  let colA := (getCol df col_actual).getD []
  let colP := (getCol df col_pred).getD []
  match optMin (seriesMin colA) (seriesMin colP),
        optMax (seriesMax colA) (seriesMax colP) with
  | some x_min, some x_max =>
    let Delta_x := x_max - x_min
    [Effect.setXlim (some (x_min - 0.05 * Delta_x)) (some (x_max + 0.05 * Delta_x)),
     Effect.setYlim (some (x_min - 0.05 * Delta_x)) (some (x_max + 0.05 * Delta_x))]
  | _, _ =>
    [Effect.setXlim none none, Effect.setYlim none none]

/-- `plot_pred_vs_actual` (`utilities/plot_utils.py:6-179`), embedded as the
ordered list of effects it performs plus the exception it raises, if any.
The function itself performs NO column validation: the first failure point for
a missing column is the `sns.scatterplot` call, which happens after the figure
has been created and titled.  On that failure the trace so far is returned
with `ValueError`. -/
def plot_pred_vs_actual (df : DataFrame) (col_actual col_pred : String)
    (col_hue : Option String) (hue_title_fancy : Option String)
    (hue_order : Option (List String)) (hue_palette : Option (List (String × String)))
    (target_title_fancy target_units_title_fancy : String)
    (scores : Option (List (String × ℚ))) (use_hue print_scores : Bool) :
    List Effect × Option PyErr :=
  let hueArg := if use_hue then col_hue else none
  if scatterColsOk df col_actual col_pred hueArg then
    (preEffects target_title_fancy ++
      [Effect.scatter col_actual col_pred hueArg
        (if use_hue then hue_order else none)
        (if use_hue then hue_palette else none)] ++
      (match scores with
       | some sc => if print_scores then [Effect.scoresText sc] else []
       | none => []) ++
      axisRangeEffects df col_actual col_pred ++
      [Effect.axline,
       Effect.xlabel target_title_fancy target_units_title_fancy,
       Effect.ylabel target_title_fancy target_units_title_fancy,
       Effect.minorticksOn, Effect.setAspectEqual,
       Effect.gridMajor, Effect.gridMinor] ++
      (if use_hue then [Effect.legend hue_title_fancy] else []) ++
      [Effect.showPlot],
     none)
  else
    (preEffects target_title_fancy, some PyErr.valueError)

/-! ## Helper lemmas -/

theorem mem_pdUnique {α : Type} [DecidableEq α] (x : α) (l : List α) :
    x ∈ pdUnique l ↔ x ∈ l := by
  induction l with
  | nil => simp [pdUnique]
  | cons a l ih =>
    simp only [pdUnique, List.mem_cons, List.mem_filter, ih, decide_eq_true_eq]
    by_cases hxa : x = a <;> simp [hxa]

theorem lookup_eq_some_of_mem {l : List (Int × String)}
    (hkeys : (l.map Prod.fst).Nodup) {c : Int} {s : String} (h : (c, s) ∈ l) :
    l.lookup c = some s := by
  induction l with
  | nil => simp at h
  | cons p t ih =>
    obtain ⟨k, v⟩ := p
    simp only [List.map_cons, List.nodup_cons, List.mem_map] at hkeys
    rcases List.mem_cons.mp h with heq | hmem
    · obtain ⟨hk, hv⟩ := Prod.mk.injEq .. ▸ heq
      simp [List.lookup, ← hk, ← hv]
    · have hne : (c == k) = false := by
        refine beq_eq_false_iff_ne.mpr ?_
        rintro rfl
        exact hkeys.1 ⟨(c, s), hmem, rfl⟩
      simpa [List.lookup, hne] using ih hkeys.2 hmem

theorem lookup_eq_none_of_not_mem {l : List (Int × String)} {c : Int}
    (h : c ∉ l.map Prod.fst) : l.lookup c = none := by
  induction l with
  | nil => rfl
  | cons p t ih =>
    obtain ⟨k, v⟩ := p
    simp only [List.map_cons, List.mem_cons] at h
    push_neg at h
    have hne : (c == k) = false := beq_eq_false_iff_ne.mpr h.1
    simpa [List.lookup, hne] using ih h.2

/-! ## Claims about `convert_LCZ_num_to_class` -/

/-- C2: for a reference table with unique keys and a code sequence whose codes
are all keys of the table, `convert_LCZ_num_to_class` returns a sequence of the
same length whose entry at every position is exactly the table's label for the
code at that position. -/
theorem convert_maps_each_position (T : List (Int × String)) (C : List Int)
    (hkeys : (T.map Prod.fst).Nodup)
    (hall : ∀ c ∈ C, c ∈ T.map Prod.fst) :
    (convert_LCZ_num_to_class C T).length = C.length ∧
    ∀ (i : Nat) (c : Int), C[i]? = some c →
      ∃ s, (c, s) ∈ T ∧ (convert_LCZ_num_to_class C T)[i]? = some (some s) := by
  refine ⟨List.length_map .., ?_⟩
  intro i c hci
  obtain ⟨⟨c', s⟩, hmem, hc'⟩ :=
    List.mem_map.mp (hall c (List.getElem?_mem hci))
  subst hc'
  refine ⟨s, hmem, ?_⟩
  simp [convert_LCZ_num_to_class, List.getElem?_map, hci,
    lookup_eq_some_of_mem hkeys hmem]

/-- Witness for C2, on the spec's own example: table `{1: "A", 2: "B", 3: "C"}`
and codes `[2, 1, 2, 3]` give `"B"` at position 0. -/
theorem convert_maps_each_position_witness :
    (convert_LCZ_num_to_class [2, 1, 2, 3] [(1, "A"), (2, "B"), (3, "C")])[0]? =
      some (some "B") := by
  obtain ⟨s, hs, hres⟩ :=
    (convert_maps_each_position [(1, "A"), (2, "B"), (3, "C")] [2, 1, 2, 3]
      (by decide) (by decide)).2 0 2 (by decide)
  have hsB : s = "B" := by simpa using hs
  rw [hsB] at hres
  exact hres

/-- C5: a code with no entry in the reference table does not make
`convert_LCZ_num_to_class` fail: the whole batch is still produced (same
length), the positions holding an absent code map to the missing value `none`,
and every position holding a present code is still mapped to its label. -/
theorem convert_lookup_miss (T : List (Int × String)) (C : List Int)
    (hkeys : (T.map Prod.fst).Nodup)
    (c0 : Int) (hc0mem : c0 ∈ C) (hc0 : c0 ∉ T.map Prod.fst) :
    (convert_LCZ_num_to_class C T).length = C.length ∧
    (∀ (i : Nat) (c : Int), C[i]? = some c → c ∉ T.map Prod.fst →
      (convert_LCZ_num_to_class C T)[i]? = some none) ∧
    (∀ (i : Nat) (c : Int) (s : String), C[i]? = some c → (c, s) ∈ T →
      (convert_LCZ_num_to_class C T)[i]? = some (some s)) := by
  refine ⟨List.length_map .., ?_, ?_⟩
  · intro i c hci hc
    simp [convert_LCZ_num_to_class, List.getElem?_map, hci,
      lookup_eq_none_of_not_mem hc]
  · intro i c s hci hcs
    simp [convert_LCZ_num_to_class, List.getElem?_map, hci,
      lookup_eq_some_of_mem hkeys hcs]

/-- Witness for C5: with table `{1: "A"}` and codes `[1, 5]`, position 1
(code 5, not a key) becomes the missing value while position 0 is still
mapped to `"A"`. -/
theorem convert_lookup_miss_witness :
    (convert_LCZ_num_to_class [1, 5] [(1, "A")]).length = 2 ∧
    (convert_LCZ_num_to_class [1, 5] [(1, "A")])[1]? = some none ∧
    (convert_LCZ_num_to_class [1, 5] [(1, "A")])[0]? = some (some "A") := by
  obtain ⟨hlen, hmiss, hhit⟩ :=
    convert_lookup_miss [(1, "A")] [1, 5] (by decide) 5 (by decide) (by decide)
  exact ⟨hlen, hmiss 1 5 (by decide) (by decide),
    hhit 0 1 "A" (by decide) (by decide)⟩

/-! ## Claims about `get_LCZ_order` -/

/-- C10: on an empty input series, `get_LCZ_order` succeeds with the empty
list for both recognized kinds, whatever the reference table. -/
theorem get_LCZ_order_empty (T : List (Int × String)) :
    get_LCZ_order [] T "num" = .ok [] ∧ get_LCZ_order [] T "class" = .ok [] := by
  constructor <;>
    simp [get_LCZ_order, pdUnique, List.filter_eq_nil_iff]

/-- The list `get_LCZ_order` returns for `LCZ_kind = "class"`: the mapper's
values in mapper order, filtered by occurrence in the input. -/
theorem get_LCZ_order_class_eq (T : List (Int × String)) (v : List LCZVal)
    (o : List LCZVal) (h : get_LCZ_order v T "class" = .ok o) :
    o = ((T.map Prod.snd).map LCZVal.cls).filter
      (fun x => decide (x ∈ pdUnique v)) := by
  simpa [get_LCZ_order] using h.symm

/-- C1 (amended): when the reference table's class labels are pairwise
distinct, the `"class"` output of `get_LCZ_order` is a subsequence of the
table's value-ordering, has no duplicates, and holds exactly the table values
occurring in the input.  (Without the distinctness hypothesis the
duplicate-freeness fails, see the counterexample.) -/
theorem get_LCZ_order_class_subsequence (T : List (Int × String))
    (v o : List LCZVal) (hvals : (T.map Prod.snd).Nodup)
    (h : get_LCZ_order v T "class" = .ok o) :
    o.Sublist ((T.map Prod.snd).map LCZVal.cls) ∧ o.Nodup ∧
    (∀ x, x ∈ o ↔ x ∈ (T.map Prod.snd).map LCZVal.cls ∧ x ∈ v) := by
  have ho := get_LCZ_order_class_eq T v o h
  subst ho
  refine ⟨List.filter_sublist .., ?_, ?_⟩
  · exact (hvals.map (fun a b hab => by injection hab)).filter _
  · intro x
    simp [List.mem_filter, mem_pdUnique]

/-- Witness for C1 on the spec's example: table `{1: "A", 2: "B", 3: "C"}`,
input `["B", "A", "B", "C"]`, output `["A", "B", "C"]` in table order. -/
theorem get_LCZ_order_class_subsequence_witness :
    ([LCZVal.cls "A", LCZVal.cls "B", LCZVal.cls "C"] : List LCZVal).Sublist
      ((([((1 : Int), "A"), (2, "B"), (3, "C")].map Prod.snd)).map LCZVal.cls) ∧
    ([LCZVal.cls "A", LCZVal.cls "B", LCZVal.cls "C"] : List LCZVal).Nodup :=
  have h := get_LCZ_order_class_subsequence [(1, "A"), (2, "B"), (3, "C")]
    [LCZVal.cls "B", LCZVal.cls "A", LCZVal.cls "B", LCZVal.cls "C"]
    [LCZVal.cls "A", LCZVal.cls "B", LCZVal.cls "C"] (by decide) rfl
  ⟨h.1, h.2.1⟩

/-- Counterexample to C1 as stated: for the table `{1: "A", 2: "A"}` (two
codes sharing one label) and input `["A"]`, the output is `["A", "A"]` — the
label appears once per table entry, so duplicates are NOT removed. -/
theorem get_LCZ_order_dup_labels_counterexample :
    get_LCZ_order [LCZVal.cls "A"] [(1, "A"), (2, "A")] "class" =
      .ok [LCZVal.cls "A", LCZVal.cls "A"] ∧
    ¬ ([LCZVal.cls "A", LCZVal.cls "A"] : List LCZVal).Nodup :=
  ⟨rfl, by decide⟩

/-- C3: calling `get_LCZ_order` with an unrecognized kind does fail before
producing any list, but NOT with the documented `ValueError`: the `case _`
arm never raises the `ValueError` it builds, and the subsequent use of the
unbound local `LCZ_ref` raises `UnboundLocalError` instead. -/
theorem get_LCZ_order_invalid_kind_unbound :
    get_LCZ_order [LCZVal.cls "A"] [(1, "A")] "foo" =
      .error PyErr.unboundLocalError ∧
    get_LCZ_order [LCZVal.cls "A"] [(1, "A")] "foo" ≠
      .error PyErr.valueError :=
  ⟨rfl, by simp [get_LCZ_order]⟩

/-- C7: `get_LCZ_order` is idempotent — it is deterministic (same inputs give
the same output, definitionally), and re-applying it with `"class"` to its own
output returns that output unchanged. -/
theorem get_LCZ_order_idempotent (T : List (Int × String)) (v o : List LCZVal)
    (h : get_LCZ_order v T "class" = .ok o) :
    get_LCZ_order o T "class" = .ok o := by
  have ho := get_LCZ_order_class_eq T v o h
  have hcongr : ((T.map Prod.snd).map LCZVal.cls).filter
      (fun x => decide (x ∈ pdUnique o)) =
      ((T.map Prod.snd).map LCZVal.cls).filter
      (fun x => decide (x ∈ pdUnique v)) := by
    refine List.filter_congr ?_
    intro x hx
    have hbi : x ∈ pdUnique o ↔ x ∈ pdUnique v := by
      rw [mem_pdUnique, mem_pdUnique, ho, List.mem_filter]
      simp only [decide_eq_true_eq, mem_pdUnique]
      exact ⟨fun hc => hc.2, fun hv => ⟨hx, hv⟩⟩
    simp [hbi]
  calc get_LCZ_order o T "class"
      = .ok (((T.map Prod.snd).map LCZVal.cls).filter
          (fun x => decide (x ∈ pdUnique o))) := by
        simp [get_LCZ_order]
    _ = .ok o := by rw [hcongr, ← ho]

/-- Witness for C7: applying `get_LCZ_order` to its own output
`["A", "B"]` (obtained from input `["B", "A"]`) leaves it unchanged. -/
theorem get_LCZ_order_idempotent_witness :
    get_LCZ_order [LCZVal.cls "A", LCZVal.cls "B"] [(1, "A"), (2, "B")]
      "class" = .ok [LCZVal.cls "A", LCZVal.cls "B"] :=
  get_LCZ_order_idempotent [(1, "A"), (2, "B")]
    [LCZVal.cls "B", LCZVal.cls "A"]
    [LCZVal.cls "A", LCZVal.cls "B"] rfl

/-- C9: the output of `get_LCZ_order` depends only on the SET of distinct
values of the input series: two inputs with the same members give identical
results, for every table and every kind (recognized or not). -/
theorem get_LCZ_order_value_set_determined (T : List (Int × String))
    (k : String) (v₁ v₂ : List LCZVal) (h : ∀ x, x ∈ v₁ ↔ x ∈ v₂) :
    get_LCZ_order v₁ T k = get_LCZ_order v₂ T k := by
  have hf : ∀ l : List LCZVal,
      l.filter (fun x => decide (x ∈ pdUnique v₁)) =
      l.filter (fun x => decide (x ∈ pdUnique v₂)) := by
    intro l
    refine List.filter_congr ?_
    intro x _
    simp [mem_pdUnique, h x]
  by_cases h1 : k = "num"
  · simp [get_LCZ_order, h1, hf]
  · by_cases h2 : k = "class"
    · simp [get_LCZ_order, h1, h2, hf]
    · simp [get_LCZ_order, h1, h2]

/-- Witness for C9: `["A", "A"]` and `["A"]` have the same distinct values,
so the derived orders coincide. -/
theorem get_LCZ_order_value_set_determined_witness :
    get_LCZ_order [LCZVal.cls "A", LCZVal.cls "A"] [(1, "A"), (2, "B")]
      "class" =
    get_LCZ_order [LCZVal.cls "A"] [(1, "A"), (2, "B")] "class" :=
  get_LCZ_order_value_set_determined [(1, "A"), (2, "B")] "class"
    [LCZVal.cls "A", LCZVal.cls "A"] [LCZVal.cls "A"]
    (fun x => by simp)

/-! ## Claims about `plot_pred_vs_actual` -/

theorem legend_not_mem_axisRangeEffects (df : DataFrame) (a p : String)
    (t : Option String) : Effect.legend t ∉ axisRangeEffects df a p := by
  intro hmem
  unfold axisRangeEffects at hmem
  dsimp only at hmem
  split at hmem <;> simp at hmem

theorem scatter_not_mem_axisRangeEffects (df : DataFrame) (a p x y : String)
    (h : Option String) (o : Option (List String))
    (pal : Option (List (String × String))) :
    Effect.scatter x y h o pal ∉ axisRangeEffects df a p := by
  intro hmem
  unfold axisRangeEffects at hmem
  dsimp only at hmem
  split at hmem <;> simp at hmem

/-- C4 (amended): a record set missing the actual column (or the predicted
column, or the hue column when `use_hue` is set) makes `plot_pred_vs_actual`
fail with `ValueError` — but the failure is raised by the seaborn scatter
call, NOT by upfront validation: by then the figure has already been created
and titled.  Nothing is drawn and the chart is never shown (effects stop at
the four setup effects). -/
theorem plot_missing_field_fails (df : DataFrame) (col_actual col_pred : String)
    (col_hue hue_title_fancy : Option String) (hue_order : Option (List String))
    (hue_palette : Option (List (String × String)))
    (target_title_fancy target_units_title_fancy : String)
    (scores : Option (List (String × ℚ))) (use_hue print_scores : Bool)
    (hmiss : hasCol df col_actual = false ∨ hasCol df col_pred = false ∨
      (use_hue = true ∧ ∃ hname, col_hue = some hname ∧
        hasCol df hname = false)) :
    plot_pred_vs_actual df col_actual col_pred col_hue hue_title_fancy
      hue_order hue_palette target_title_fancy target_units_title_fancy
      scores use_hue print_scores =
      (preEffects target_title_fancy, some PyErr.valueError) := by
  have hcols : scatterColsOk df col_actual col_pred
      (if use_hue then col_hue else none) = false := by
    rcases hmiss with h | h | ⟨hu, hname, hch, hfalse⟩
    · simp [scatterColsOk, h]
    · simp [scatterColsOk, h]
    · simp [scatterColsOk, hu, hch, hfalse]
  simp [plot_pred_vs_actual, hcols]

/-- Witness for C4: a record set with only a `"y_pred"` column and requested
actual column `"y_actual"`. -/
theorem plot_missing_field_fails_witness :
    plot_pred_vs_actual [("y_pred", [(1 : ℚ)])] "y_actual" "y_pred" none none
      none none "" "" none false false =
      (preEffects "", some PyErr.valueError) :=
  plot_missing_field_fails [("y_pred", [(1 : ℚ)])] "y_actual" "y_pred" none
    none none none "" "" none false false (Or.inl (by rfl))

/-- Counterexample to C4 as stated: on that same record set the failure is a
`ValueError`, but it is NOT surfaced before any rendering side effect — the
effect trace at the moment of failure is non-empty (rc context entered,
figure created, axes initialised, title set). -/
theorem plot_missing_field_counterexample :
    (plot_pred_vs_actual [("y_pred", [(1 : ℚ)])] "y_actual" "y_pred" none none
      none none "" "" none false false).2 = some PyErr.valueError ∧
    (plot_pred_vs_actual [("y_pred", [(1 : ℚ)])] "y_actual" "y_pred" none none
      none none "" "" none false false).1 ≠ [] := by
  constructor
  · rfl
  · simp [plot_pred_vs_actual, scatterColsOk, hasCol, preEffects, List.lookup]

/-- C6: when the actual and predicted columns exist (and the scatter call
succeeds), the axis range set on BOTH axes is
`[min − 0.05·Δ, max + 0.05·Δ]` where `min`/`max` are taken over the union of
the two columns and `Δ = max − min` — the very same interval for x and y. -/
theorem plot_axis_bounds (df : DataFrame) (col_actual col_pred : String)
    (col_hue hue_title_fancy : Option String)
    (hue_order : Option (List String))
    (hue_palette : Option (List (String × String)))
    (target_title_fancy target_units_title_fancy : String)
    (scores : Option (List (String × ℚ))) (use_hue print_scores : Bool)
    (la lp : List ℚ) (m M : ℚ)
    (hA : getCol df col_actual = some la) (hP : getCol df col_pred = some lp)
    (hok : scatterColsOk df col_actual col_pred
      (if use_hue then col_hue else none) = true)
    (hm : optMin (seriesMin la) (seriesMin lp) = some m)
    (hM : optMax (seriesMax la) (seriesMax lp) = some M) :
    Effect.setXlim (some (m - 0.05 * (M - m))) (some (M + 0.05 * (M - m))) ∈
      (plot_pred_vs_actual df col_actual col_pred col_hue hue_title_fancy
        hue_order hue_palette target_title_fancy target_units_title_fancy
        scores use_hue print_scores).1 ∧
    Effect.setYlim (some (m - 0.05 * (M - m))) (some (M + 0.05 * (M - m))) ∈
      (plot_pred_vs_actual df col_actual col_pred col_hue hue_title_fancy
        hue_order hue_palette target_title_fancy target_units_title_fancy
        scores use_hue print_scores).1 := by
  have hrange : axisRangeEffects df col_actual col_pred =
      [Effect.setXlim (some (m - 0.05 * (M - m))) (some (M + 0.05 * (M - m))),
       Effect.setYlim (some (m - 0.05 * (M - m))) (some (M + 0.05 * (M - m)))] := by
    unfold axisRangeEffects
    rw [hA, hP]
    simp only [Option.getD_some]
    rw [hm, hM]
  constructor <;>
    simp [plot_pred_vs_actual, hok, hrange, List.mem_append]

/-- Witness for C6, on the spec's own numbers: combined range `[100, 310]`
gives `[89.5, 320.5]` on both axes. -/
theorem plot_axis_bounds_witness :
    Effect.setXlim (some (89.5 : ℚ)) (some (320.5 : ℚ)) ∈
      (plot_pred_vs_actual [("act", [(100 : ℚ), 310]), ("pred", [(150 : ℚ), 200])]
        "act" "pred" none none none none "" "" none false false).1 ∧
    Effect.setYlim (some (89.5 : ℚ)) (some (320.5 : ℚ)) ∈
      (plot_pred_vs_actual [("act", [(100 : ℚ), 310]), ("pred", [(150 : ℚ), 200])]
        "act" "pred" none none none none "" "" none false false).1 := by
  have h := plot_axis_bounds
    [("act", [(100 : ℚ), 310]), ("pred", [(150 : ℚ), 200])] "act" "pred"
    none none none none "" "" none false false
    [(100 : ℚ), 310] [(150 : ℚ), 200] 100 310
    rfl rfl rfl (by decide) (by decide)
  have e1 : (100 : ℚ) - 0.05 * (310 - 100) = 89.5 := by norm_num
  have e2 : (310 : ℚ) + 0.05 * (310 - 100) = 320.5 := by norm_num
  rw [e1, e2] at h
  exact h

/-- C8: with `use_hue = false` the hue arguments are inert: the whole
effect trace (and error) is identical for any two choices of `hue_order` and
`hue_palette`, no legend effect is ever emitted, and the scatter call is made
with no hue column, no hue order and no palette (one shared color). -/
theorem plot_no_hue (df : DataFrame) (col_actual col_pred : String)
    (col_hue hue_title_fancy : Option String)
    (ho1 ho2 : Option (List String))
    (pal1 pal2 : Option (List (String × String)))
    (target_title_fancy target_units_title_fancy : String)
    (scores : Option (List (String × ℚ))) (print_scores : Bool) :
    plot_pred_vs_actual df col_actual col_pred col_hue hue_title_fancy
      ho1 pal1 target_title_fancy target_units_title_fancy scores false
      print_scores =
    plot_pred_vs_actual df col_actual col_pred col_hue hue_title_fancy
      ho2 pal2 target_title_fancy target_units_title_fancy scores false
      print_scores ∧
    (∀ t, Effect.legend t ∉
      (plot_pred_vs_actual df col_actual col_pred col_hue hue_title_fancy
        ho1 pal1 target_title_fancy target_units_title_fancy scores false
        print_scores).1) ∧
    (∀ x y hue ho pal, Effect.scatter x y hue ho pal ∈
      (plot_pred_vs_actual df col_actual col_pred col_hue hue_title_fancy
        ho1 pal1 target_title_fancy target_units_title_fancy scores false
        print_scores).1 → hue = none ∧ ho = none ∧ pal = none) := by
  refine ⟨rfl, ?_, ?_⟩
  · intro t
    by_cases hok : scatterColsOk df col_actual col_pred none = true
    · rcases scores with _ | sc <;> cases print_scores <;>
        simp [plot_pred_vs_actual, hok, preEffects,
          legend_not_mem_axisRangeEffects]
    · simp [plot_pred_vs_actual, Bool.eq_false_iff.mpr hok, preEffects]
  · intro x y hue ho pal hmem
    by_cases hok : scatterColsOk df col_actual col_pred none = true
    · rcases scores with _ | sc <;> cases print_scores <;>
        (simp [plot_pred_vs_actual, hok, preEffects,
          scatter_not_mem_axisRangeEffects] at hmem;
         exact ⟨hmem.2.2.1, hmem.2.2.2.1, hmem.2.2.2.2⟩)
    · simp [plot_pred_vs_actual, Bool.eq_false_iff.mpr hok, preEffects] at hmem

/-- Witness for C8: two different hue orders and palettes give the same
trace, and no legend effect occurs for a concrete record set. -/
theorem plot_no_hue_witness :
    plot_pred_vs_actual [("a", [(1 : ℚ)]), ("p", [(2 : ℚ)])] "a" "p" none none
      (some ["x"]) (some [("x", "red")]) "" "" none false true =
    plot_pred_vs_actual [("a", [(1 : ℚ)]), ("p", [(2 : ℚ)])] "a" "p" none none
      none none "" "" none false true ∧
    Effect.legend none ∉
      (plot_pred_vs_actual [("a", [(1 : ℚ)]), ("p", [(2 : ℚ)])] "a" "p" none
        none (some ["x"]) (some [("x", "red")]) "" "" none false true).1 :=
  have h := plot_no_hue [("a", [(1 : ℚ)]), ("p", [(2 : ℚ)])] "a" "p" none none
    (some ["x"]) none (some [("x", "red")]) none "" "" none true
  ⟨h.1, h.2.1 none⟩

end LCZPlotter
